import Mathlib

/-!
Verification development for the browser_wellbeing_server repository
(src/index.js, which contains two drafts of the server, and
src/unnamed/part_000, a third draft).  The server is an Express app over a
MySQL table `time_tracking(user_id, website_url, website_title, visit_date,
total_time_seconds)` with a unique key on (user_id, website_url, visit_date)
(the logical schema declares `unique(user_id, website_url, visit_date)`).

The embedding below models:
  * JavaScript request-body values (`JSVal`) with JS truthiness, as used by
    the handlers' `!x` and `x === undefined` checks;
  * the `time_tracking` table as a list of rows, with the MySQL
    `INSERT ... ON DUPLICATE KEY UPDATE total_time_seconds =
    total_time_seconds + VALUES(total_time_seconds)` statement as `upsert`
    (note: only the duration column appears in the UPDATE clause, so the
    stored title is untouched on conflict — this is faithful to all three
    drafts);
  * `Date().toISOString().slice(0, 10)` via an executable civil-calendar
    conversion from milliseconds since the Unix epoch (faithful to JS for
    timestamps with year ≤ 9999, which covers all realistic inputs);
  * the route handlers (`/track`, `/login`, `/register`) and the
    `authenticateToken` middleware, in both the index.js variant (JSON error
    bodies) and the part_000 variant (`res.sendStatus`, bare status).
External collaborators (MySQL atomicity, bcrypt, jsonwebtoken) are modelled
at their interface: an atomic upsert step, and abstract `hash`/`compare`/
`verify`/`sign` functions passed as parameters.
-/

/-- A JavaScript value as it can appear in a parsed JSON request body,
together with `undefined` for absent fields.  Numbers are modelled as
rationals (covering the integers, negatives and non-integer values the
claims mention; NaN/Infinity cannot appear in parsed JSON). -/
inductive JSVal where
  | undef : JSVal
  | null : JSVal
  | num : Rat → JSVal
  | str : String → JSVal
  | boolean : Bool → JSVal
deriving DecidableEq, Repr

/-- JavaScript truthiness of a `JSVal` (`undefined`, `null`, `0`, `""` and
`false` are falsy), as used by the handlers' `!x` validation checks. -/
def JSVal.truthy : JSVal → Bool
  | .undef => false
  | .null => false
  | .num q => q != 0
  | .str s => s != ""
  | .boolean b => b

/-- A row of the `time_tracking` table.  `website_url`, `website_title` and
`total_time_seconds` hold whatever JS value the handler passed to the SQL
driver (the code forwards the request-body fields unchanged). -/
structure TTRecord where
  user_id : Nat
  website_url : JSVal
  website_title : JSVal
  visit_date : String
  total_time_seconds : JSVal
deriving DecidableEq, Repr

/-- Two rows collide on the table's unique key (user_id, website_url,
visit_date). -/
def sameKey (a b : TTRecord) : Bool :=
  a.user_id == b.user_id && a.website_url == b.website_url &&
    a.visit_date == b.visit_date

/-- MySQL addition as used by `total_time_seconds + VALUES(total_time_seconds)`:
numeric addition, and NULL-propagation when an operand is not a number
(SQL `NULL + x` is `NULL`; only numeric and NULL operands occur here). -/
def sqlAdd : JSVal → JSVal → JSVal
  | .num a, .num b => .num (a + b)
  | _, _ => .null

/-- The single atomic statement issued by /track:
`INSERT INTO time_tracking ... ON DUPLICATE KEY UPDATE
 total_time_seconds = total_time_seconds + VALUES(total_time_seconds)`.
If a row with the same unique key exists, only its duration column is
updated (the title column is not listed in the UPDATE clause and is kept);
otherwise the new row is inserted.  The draft in the second half of
index.js spells the increment `+ ?` with the same value bound again, which
is the same operation. -/
def upsert (db : List TTRecord) (r : TTRecord) : List TTRecord :=
  if db.any (fun e => sameKey e r) then
    db.map (fun e =>
      if sameKey e r then
        { e with total_time_seconds := sqlAdd e.total_time_seconds r.total_time_seconds }
      else e)
  else db ++ [r]

/-- The rows of `db` matching the unique key of `r`. -/
def rowsFor (db : List TTRecord) (r : TTRecord) : List TTRecord :=
  db.filter (fun e => sameKey e r)

/-- The table invariant enforced by the unique key: no two distinct rows
share a (user_id, website_url, visit_date) key. -/
def wellFormed (db : List TTRecord) : Prop :=
  db.Pairwise (fun a b => sameKey a b = false)

/-! ### Civil-calendar model of `new Date(t).toISOString()` -/

/-- Days since the Unix epoch of a timestamp in milliseconds. -/
def epochDay (t : Nat) : Nat := t / 86400000

/-- Civil (proleptic Gregorian) date of a day count since 1970-01-01,
computed in UTC: returns (year, month, day).  Standard days-to-civil
algorithm, valid for all non-negative day counts. -/
def civilFromDays (z : Nat) : Nat × Nat × Nat :=
  let zs := z + 719468
  let era := zs / 146097
  let doe := zs % 146097
  let yoe := (doe - doe / 1460 + doe / 36524 - doe / 146096) / 365
  let y := yoe + era * 400
  let doy := doe - (365 * yoe + yoe / 4 - yoe / 100)
  let mp := (5 * doy + 2) / 153
  let d := doy - (153 * mp + 2) / 5 + 1
  let m := if mp < 10 then mp + 3 else mp - 9
  (if m ≤ 2 then y + 1 else y, m, d)

/-- The ten characters "YYYY-MM-DD" of an ISO-8601 date, zero-padded
(faithful to `toISOString` for years 0–9999). -/
def dateChars (y m d : Nat) : List Char :=
  [Nat.digitChar (y / 1000 % 10), Nat.digitChar (y / 100 % 10),
   Nat.digitChar (y / 10 % 10), Nat.digitChar (y % 10), '-',
   Nat.digitChar (m / 10 % 10), Nat.digitChar (m % 10), '-',
   Nat.digitChar (d / 10 % 10), Nat.digitChar (d % 10)]

/-- The date part of the ISO-8601 rendering of a millisecond timestamp. -/
def isoDateOf (t : Nat) : List Char :=
  dateChars (civilFromDays (epochDay t)).1 (civilFromDays (epochDay t)).2.1
    (civilFromDays (epochDay t)).2.2

/-- The characters "HH:MM:SS.mmmZ" of the time-of-day part of
`toISOString`. -/
def timeChars (t : Nat) : List Char :=
  let r := t % 86400000
  let hh := r / 3600000
  let mm := r % 3600000 / 60000
  let ss := r % 60000 / 1000
  let ms := r % 1000
  [Nat.digitChar (hh / 10 % 10), Nat.digitChar (hh % 10), ':',
   Nat.digitChar (mm / 10 % 10), Nat.digitChar (mm % 10), ':',
   Nat.digitChar (ss / 10 % 10), Nat.digitChar (ss % 10), '.',
   Nat.digitChar (ms / 100 % 10), Nat.digitChar (ms / 10 % 10),
   Nat.digitChar (ms % 10), 'Z']

/-- Model of `new Date(t).toISOString()` for a UTC timestamp `t` in
milliseconds since the epoch: "YYYY-MM-DDTHH:MM:SS.mmmZ". -/
def toISOChars (t : Nat) : List Char :=
  isoDateOf t ++ 'T' :: timeChars t

/-- Model of `new Date().toISOString().slice(0, 10)` at instant `t`:
the visit date string the /track handler stores. -/
def visitDateOf (t : Nat) : String :=
  String.mk ((toISOChars t).take 10)

/-! ### HTTP responses -/

/-- The body shapes the server sends. `statusBare` is the empty body of
`res.sendStatus(n)` in the part_000 draft (Express sends the status text,
not JSON). -/
inductive RespBody where
  | jsonError : String → RespBody
  | jsonMessage : String → RespBody
  | jsonMessageToken : String → String → RespBody
  | jsonMessageUserId : String → Nat → RespBody
  | statusBare : RespBody
  | text : String → RespBody
deriving DecidableEq, Repr

/-- An HTTP response: status code and body. -/
structure HttpResponse where
  status : Nat
  body : RespBody
deriving DecidableEq, Repr

/-- Whether a response body is a JSON object carrying an `error` message. -/
def RespBody.isJsonError : RespBody → Bool
  | .jsonError _ => true
  | _ => false

/-! ### The /track handler and the authentication middleware -/

/-- The JSON body of a /track request as destructured by the handler:
`const { website_url, website_title, total_time_seconds } = req.body`. -/
structure TrackReq where
  website_url : JSVal
  website_title : JSVal
  total_time_seconds : JSVal
deriving DecidableEq, Repr

/-- The /track handler body (identical logic in all three drafts; logging
elided).  `clock` models successive `new Date()` readings: the code calls
it once, at entry, to compute `visit_date`, before the validation check and
before the INSERT.  `fault` models the storage layer throwing, which the
`catch` turns into a 500 JSON error.  Validation:
`if (!website_url || total_time_seconds === undefined)` → 400 with no
write; otherwise the single atomic upsert statement runs. -/
def trackHandler (userId : Nat) (req : TrackReq) (clock : Nat → Nat)
    (fault : Bool) (db : List TTRecord) : HttpResponse × List TTRecord :=
  let visit_date := visitDateOf (clock 0)
  if !req.website_url.truthy || req.total_time_seconds == JSVal.undef then
    (⟨400, .jsonError "Missing website_url or total_time_seconds"⟩, db)
  else if fault then
    (⟨500, .jsonError "Internal server error during tracking."⟩, db)
  else
    (⟨200, .jsonMessage "Data saved successfully"⟩,
      upsert db ⟨userId, req.website_url, req.website_title, visit_date,
        req.total_time_seconds⟩)

/-- The token extracted by `authHeader && authHeader.split(" ")[1]`,
followed by the `token == null` test: `none` means the JS value was
`null`/`undefined` (header missing, or no second space-separated part).
An empty header is falsy in JS, so `authHeader && ...` yields the empty
string itself, which is not `== null` and goes on to verification. -/
def extractToken (authHeader : Option String) : Option String :=
  match authHeader with
  | none => none
  | some h =>
    if h == "" then some ""
    else ((h.data.splitOn ' ').map String.mk).get? 1

/-- The `authenticateToken` middleware of index.js (both drafts there):
401 with a JSON error when the token is null, 403 with a JSON error when
`jwt.verify` fails, else the route body runs with the user decoded from
the token.  `verify` models `jwt.verify(token, secret, cb)`: `some uid`
on success, `none` on any verification error (bad signature, expired). -/
def trackRouteJson (verify : String → Option Nat) (authHeader : Option String)
    (req : TrackReq) (clock : Nat → Nat) (fault : Bool) (db : List TTRecord) :
    HttpResponse × List TTRecord :=
  match extractToken authHeader with
  | none => (⟨401, .jsonError "Authentication token is required"⟩, db)
  | some tok =>
    match verify tok with
    | none => (⟨403, .jsonError "Invalid or expired token"⟩, db)
    | some uid => trackHandler uid req clock fault db

/-- The `authenticateToken` middleware of src/unnamed/part_000:
`res.sendStatus(401)` / `res.sendStatus(403)` — bare statuses with no JSON
body — else the same route body. -/
def trackRouteBare (verify : String → Option Nat) (authHeader : Option String)
    (req : TrackReq) (clock : Nat → Nat) (fault : Bool) (db : List TTRecord) :
    HttpResponse × List TTRecord :=
  match extractToken authHeader with
  | none => (⟨401, .statusBare⟩, db)
  | some tok =>
    match verify tok with
    | none => (⟨403, .statusBare⟩, db)
    | some uid => trackHandler uid req clock fault db

/-! ### Key lookup on the time_tracking table -/

/-- The unique-key triple of a row. -/
def keyOf (r : TTRecord) : Nat × JSVal × String :=
  (r.user_id, r.website_url, r.visit_date)

/-- The first row of `db` matching the unique key `k` (under the table
invariant there is at most one). -/
def rowAt (db : List TTRecord) (k : Nat × JSVal × String) : Option TTRecord :=
  db.find? (fun e => decide (keyOf e = k))

/-- The stored duration at key `k`, when a row exists. -/
def durAt (db : List TTRecord) (k : Nat × JSVal × String) : Option JSVal :=
  (rowAt db k).map (fun e => e.total_time_seconds)

/-- The stored title at key `k`, when a row exists. -/
def titleAt (db : List TTRecord) (k : Nat × JSVal × String) : Option JSVal :=
  (rowAt db k).map (fun e => e.website_title)

/-! ### The /register and /login handlers -/

/-- A row of the `users` table.  The username holds whatever JS value was
inserted (the handlers forward the request field to the driver). -/
structure UserRec where
  id : Nat
  username : JSVal
  password_hash : String
deriving DecidableEq, Repr

/-- The /register handler (identical in all drafts): 400 when a field is
falsy, 409 when a row with the username exists, otherwise insert and 201
with the new row id.  `hash` models `bcrypt.hash`; `fault` models a
storage-layer throw caught by the catch block (500). -/
def registerHandler (hash : JSVal → String) (username password : JSVal)
    (users : List UserRec) (fault : Bool) (nextId : Nat) :
    HttpResponse × List UserRec :=
  if !username.truthy || !password.truthy then
    (⟨400, .jsonError "Username and password are required"⟩, users)
  else if fault then
    (⟨500, .jsonError "Internal server error"⟩, users)
  else if users.any (fun u => u.username == username) then
    (⟨409, .jsonError "Username already exists"⟩, users)
  else
    (⟨201, .jsonMessageUserId "User registered successfully" nextId⟩,
      users ++ [⟨nextId, username, hash password⟩])

/-- The /login handler (identical in all drafts): 400 when a field is
falsy; the first `users` row with the username is fetched; 401 with
"Invalid credentials" when no row exists, 401 with the same body when
`bcrypt.compare` rejects the password, otherwise 200 with a signed token
for the row's id.  `compare` models `bcrypt.compare`, `sign` models
`jwt.sign({ userId: user.id }, ...)`; `fault` models a storage throw
(500). -/
def loginHandler (compare : JSVal → String → Bool) (sign : Nat → String)
    (username password : JSVal) (users : List UserRec) (fault : Bool) :
    HttpResponse :=
  if !username.truthy || !password.truthy then
    ⟨400, .jsonError "Username and password are required"⟩
  else if fault then
    ⟨500, .jsonError "Internal server error"⟩
  else
    match users.find? (fun u => u.username == username) with
    | none => ⟨401, .jsonError "Invalid credentials"⟩
    | some u =>
      if compare password u.password_hash then
        ⟨200, .jsonMessageToken "Login successful" (sign u.id)⟩
      else ⟨401, .jsonError "Invalid credentials"⟩

/-! ### The dashboard aggregate (modelled from the spec) -/

/-- Modelled from the spec: a logical row of the usage ledger as the
dashboard query reads it.  No GET /dashboard route exists in any source
file under src/; the spec (section 4.2 and the HTTP-surface table)
describes it, so the aggregate below follows the spec's words.  Dates are
day numbers (days since the Unix epoch) and durations non-negative
integers, as in the spec's data model. -/
structure LedgerRow where
  user_id : Nat
  website_url : String
  visit_date : Nat
  total_time_seconds : Nat
deriving DecidableEq, Repr

/-- Two day numbers fall in the same ISO week (Monday-start).  Day 0
(1970-01-01) is a Thursday, so the Monday-aligned week index of day `d`
is `(d + 3) / 7`. -/
def sameIsoWeek (d1 d2 : Nat) : Bool :=
  (d1 + 3) / 7 == (d2 + 3) / 7

/-- Modelled from the spec: the window filter of the dashboard query.
`today`: date equals the current day; `current-week`: date in the same
ISO week (Monday-start) as the current day; any other or missing selector
behaves as `today`. -/
def windowPred (sel : Option String) (today d : Nat) : Bool :=
  if sel == some "current-week" then sameIsoWeek today d else d == today

/-- Sum of the durations of the rows for site `s`. -/
def siteTotal (rows : List LedgerRow) (s : String) : Nat :=
  ((rows.filter (fun r => r.website_url == s)).map
    (fun r => r.total_time_seconds)).sum

/-- Descending order on (site, total) pairs: the earlier entry has the
larger (or equal) total. -/
def descTotal (a b : String × Nat) : Prop := b.2 ≤ a.2

instance : DecidableRel descTotal := fun a b => Nat.decLe b.2 a.2

instance : IsTotal (String × Nat) descTotal := ⟨fun a b => le_total b.2 a.2⟩

instance : IsTrans (String × Nat) descTotal := ⟨fun _ _ _ h1 h2 => le_trans h2 h1⟩

/-- The user's rows falling in the selected window. -/
def windowRows (uid : Nat) (sel : Option String) (today : Nat)
    (rows : List LedgerRow) : List LedgerRow :=
  rows.filter (fun r => r.user_id == uid && windowPred sel today r.visit_date)

/-- Modelled from the spec: the GET /dashboard aggregate.  For the given
user and window selector, the per-site sums of accumulated seconds over
the window, ordered by descending total duration (ties by storage order,
unspecified in the spec). -/
def dashboard (uid : Nat) (sel : Option String) (today : Nat)
    (rows : List LedgerRow) : List (String × Nat) :=
  let mine := windowRows uid sel today rows
  let sites := (mine.map (fun r => r.website_url)).dedup
  List.insertionSort descTotal (sites.map (fun s => (s, siteTotal mine s)))

/-- The per-row effect of the upsert's UPDATE clause: a row colliding with
`r` gets its duration incremented, any other row is untouched. -/
def bump (r e : TTRecord) : TTRecord :=
  if sameKey e r then
    { e with total_time_seconds := sqlAdd e.total_time_seconds r.total_time_seconds }
  else e

/-- One /track observation for the fixed key (`uid`, `url`, current day
`date`), carrying a title and a number of seconds: the single atomic
statement the handler issues for it. -/
def trackObs (uid : Nat) (url : JSVal) (date : String)
    (db : List TTRecord) (ob : JSVal × Rat) : List TTRecord :=
  upsert db ⟨uid, url, ob.1, date, JSVal.num ob.2⟩

/-! ### Helper lemmas about the upsert -/

theorem keydec_eq_sameKey (e r : TTRecord) :
    decide (keyOf e = keyOf r) = sameKey e r := by
  rw [Bool.eq_iff_iff]
  simp [sameKey, keyOf, Prod.ext_iff, and_assoc]

theorem sameKey_bump (r e x : TTRecord) : sameKey (bump r e) x = sameKey e x := by
  unfold bump; split <;> rfl

theorem keyOf_bump (r e : TTRecord) : keyOf (bump r e) = keyOf e := by
  unfold bump; split <;> rfl

theorem rowAt_eq_find (db : List TTRecord) (r : TTRecord) :
    rowAt db (keyOf r) = db.find? (fun e => sameKey e r) := by
  unfold rowAt
  congr 1
  funext e
  rw [keydec_eq_sameKey]

theorem upsert_eq_map (db : List TTRecord) (r : TTRecord)
    (h : db.any (fun e => sameKey e r) = true) : upsert db r = db.map (bump r) := by
  simp only [upsert, h, if_true]
  rfl

theorem upsert_eq_append (db : List TTRecord) (r : TTRecord)
    (h : db.any (fun e => sameKey e r) = false) : upsert db r = db ++ [r] := by
  simp [upsert, h]

theorem any_of_rowAt_some (db : List TTRecord) (r e : TTRecord)
    (h : rowAt db (keyOf r) = some e) : db.any (fun x => sameKey x r) = true := by
  rw [rowAt_eq_find] at h
  have hp := List.find?_some h
  exact List.any_eq_true.mpr ⟨e, List.mem_of_find?_eq_some h, hp⟩

theorem rowAt_of_none (db : List TTRecord) (r : TTRecord)
    (h : rowAt db (keyOf r) = none) : db.any (fun x => sameKey x r) = false := by
  rw [rowAt_eq_find] at h
  rw [List.find?_eq_none] at h
  simp only [List.any_eq_false]
  intro x hx
  simp [h x hx]

theorem rowAt_append_right (db : List TTRecord) (r : TTRecord)
    (h : rowAt db (keyOf r) = none) : rowAt (db ++ [r]) (keyOf r) = some r := by
  rw [rowAt_eq_find] at h ⊢
  induction db with
  | nil => simp [List.find?, sameKey]
  | cons c db ih =>
    rw [List.cons_append]
    rw [List.find?_cons] at h ⊢
    cases hc : sameKey c r with
    | true => simp [hc] at h
    | false =>
      simp only [hc] at h ⊢
      exact ih h

theorem rowAt_map_bump (db : List TTRecord) (r e : TTRecord)
    (h : rowAt db (keyOf r) = some e) :
    rowAt (db.map (bump r)) (keyOf r) = some (bump r e) := by
  rw [rowAt_eq_find] at h ⊢
  induction db with
  | nil => simp at h
  | cons c db ih =>
    rw [List.find?_cons] at h
    rw [List.map_cons, List.find?_cons]
    cases hc : sameKey c r with
    | true =>
      simp only [hc] at h
      simp only [sameKey_bump, hc]
      rw [Option.some_inj] at h
      rw [h]
    | false =>
      simp only [hc] at h
      simp only [sameKey_bump, hc]
      exact ih h

theorem durAt_upsert_self (db : List TTRecord) (r : TTRecord) :
    durAt (upsert db r) (keyOf r) =
      some ((durAt db (keyOf r)).elim r.total_time_seconds
        (fun d => sqlAdd d r.total_time_seconds)) := by
  cases h : rowAt db (keyOf r) with
  | none =>
    rw [upsert_eq_append db r (rowAt_of_none db r h)]
    unfold durAt
    rw [rowAt_append_right db r h, h]
    rfl
  | some e =>
    rw [upsert_eq_map db r (any_of_rowAt_some db r e h)]
    unfold durAt
    rw [rowAt_map_bump db r e h, h]
    rw [rowAt_eq_find] at h
    have hp := List.find?_some h
    simp [bump, hp]

theorem wellFormed_upsert (db : List TTRecord) (r : TTRecord)
    (h : wellFormed db) : wellFormed (upsert db r) := by
  unfold wellFormed at h ⊢
  cases ha : db.any (fun e => sameKey e r) with
  | false =>
    rw [upsert_eq_append db r ha]
    rw [List.pairwise_append]
    refine ⟨h, by simp, ?_⟩
    intro a hmem b hb
    simp only [List.mem_singleton] at hb
    subst hb
    rw [List.any_eq_false] at ha
    simpa using ha a hmem
  | true =>
    rw [upsert_eq_map db r ha]
    rw [List.pairwise_map]
    refine h.imp ?_
    intro a b hab
    rw [sameKey_bump]
    unfold bump
    split <;> exact hab

theorem durAt_rowAt_none {db : List TTRecord} {k : Nat × JSVal × String}
    (h : rowAt db k = none) : durAt db k = none := by
  unfold durAt
  rw [h]
  rfl

theorem durAt_upsert_new (db : List TTRecord) (r : TTRecord)
    (h : rowAt db (keyOf r) = none) :
    durAt (upsert db r) (keyOf r) = some r.total_time_seconds := by
  have step := durAt_upsert_self db r
  rw [durAt_rowAt_none h] at step
  simpa using step

theorem durAt_upsert_old (db : List TTRecord) (r : TTRecord) (d : JSVal)
    (h : durAt db (keyOf r) = some d) :
    durAt (upsert db r) (keyOf r) = some (sqlAdd d r.total_time_seconds) := by
  have step := durAt_upsert_self db r
  rw [h] at step
  simpa using step

theorem durAt_foldl_obs (uid : Nat) (url : JSVal) (date : String) :
    ∀ (obs : List (JSVal × Rat)) (db : List TTRecord) (a : Rat),
      durAt db (uid, url, date) = some (JSVal.num a) →
      durAt (obs.foldl (trackObs uid url date) db) (uid, url, date) =
        some (JSVal.num (a + (obs.map Prod.snd).sum)) := by
  intro obs
  induction obs with
  | nil => intro db a h; simpa using h
  | cons o rest ih =>
    intro db a h
    rw [List.foldl_cons]
    have step := durAt_upsert_old db ⟨uid, url, o.1, date, JSVal.num o.2⟩ (JSVal.num a) h
    simp only [sqlAdd] at step
    have final := ih (trackObs uid url date db o) (a + o.2) step
    rw [final]
    simp [add_assoc]

theorem durAt_foldl_of_none (uid : Nat) (url : JSVal) (date : String)
    (obs : List (JSVal × Rat)) (db : List TTRecord)
    (h : rowAt db (uid, url, date) = none) (hne : obs ≠ []) :
    durAt (obs.foldl (trackObs uid url date) db) (uid, url, date) =
      some (JSVal.num ((obs.map Prod.snd).sum)) := by
  match obs, hne with
  | o :: rest, _ =>
    rw [List.foldl_cons]
    have step := durAt_upsert_new db ⟨uid, url, o.1, date, JSVal.num o.2⟩ h
    have final := durAt_foldl_obs uid url date rest (trackObs uid url date db o) o.2 step
    rw [final]
    simp

/-- C1: an authenticated /track upsert for key (user, site, day): with no
existing row the statement appends exactly one new row (with the given
duration); with an existing row of duration d the stored duration becomes
d + s; two sequential calls with s1 then s2 store s1 + s2; the unique-key
invariant (at most one row per key) holds of the empty table and is
preserved by every upsert. -/
theorem claim_C1 : ∀ (db : List TTRecord) (r : TTRecord) (s : Rat),
    r.total_time_seconds = JSVal.num s →
    (rowAt db (keyOf r) = none → upsert db r = db ++ [r]) ∧
    (∀ d : Rat, durAt db (keyOf r) = some (JSVal.num d) →
      durAt (upsert db r) (keyOf r) = some (JSVal.num (d + s))) ∧
    (∀ r2 : TTRecord, ∀ s2 : Rat, r2.total_time_seconds = JSVal.num s2 →
      keyOf r2 = keyOf r → rowAt db (keyOf r) = none →
      durAt (upsert (upsert db r) r2) (keyOf r) = some (JSVal.num (s + s2))) ∧
    wellFormed [] ∧
    (wellFormed db → wellFormed (upsert db r)) := by
  intro db r s hs
  refine ⟨?_, ?_, ?_, ?_, ?_⟩
  · intro h
    exact upsert_eq_append db r (rowAt_of_none db r h)
  · intro d hd
    have step := durAt_upsert_old db r (JSVal.num d) hd
    rw [hs] at step
    simpa [sqlAdd] using step
  · intro r2 s2 hs2 hk h
    have step1 := durAt_upsert_new db r h
    rw [hs] at step1
    have step2 := durAt_upsert_old (upsert db r) r2 (JSVal.num s) (by rw [hk]; exact step1)
    rw [hs2] at step2
    rw [hk] at step2
    simpa [sqlAdd] using step2
  · exact List.Pairwise.nil
  · exact wellFormed_upsert db r

/-- Witness for C1 at a concrete input: from an empty table, tracking
("a.com", 30) creates the single expected row, and a second call with 20
leaves a stored duration of 50. -/
theorem claim_C1_witness :
    upsert [] ⟨1, JSVal.str "a.com", JSVal.str "A", "2025-10-11", JSVal.num 30⟩ =
      [⟨1, JSVal.str "a.com", JSVal.str "A", "2025-10-11", JSVal.num 30⟩] ∧
    durAt (upsert (upsert [] ⟨1, JSVal.str "a.com", JSVal.str "A", "2025-10-11", JSVal.num 30⟩)
        ⟨1, JSVal.str "a.com", JSVal.str "A2", "2025-10-11", JSVal.num 20⟩)
      (keyOf ⟨1, JSVal.str "a.com", JSVal.str "A", "2025-10-11", JSVal.num 30⟩) =
      some (JSVal.num 50) := by
  have h := claim_C1 [] ⟨1, JSVal.str "a.com", JSVal.str "A", "2025-10-11", JSVal.num 30⟩ 30 rfl
  refine ⟨h.1 (by decide), ?_⟩
  have h2 := h.2.2.1 ⟨1, JSVal.str "a.com", JSVal.str "A2", "2025-10-11", JSVal.num 20⟩ 20
    rfl (by decide) (by decide)
  have hr : (30 : Rat) + 20 = 50 := by norm_num
  rw [hr] at h2
  exact h2

/-- C2: any number of /track observations for the same (user, site, day)
key, executed in any order (each is one atomic INSERT..ON DUPLICATE KEY
UPDATE statement, so an arbitrary interleaving of concurrent requests is an
arbitrary sequential order of these atomic statements), leaves a stored
duration equal to the sum of all observed seconds; permuting the order of
the observations does not change the final duration, so no write overwrites
another's contribution. -/
theorem claim_C2 : ∀ (uid : Nat) (url : JSVal) (date : String)
    (obs : List (JSVal × Rat)) (db : List TTRecord),
    rowAt db (uid, url, date) = none → obs ≠ [] →
    durAt (obs.foldl (trackObs uid url date) db) (uid, url, date) =
      some (JSVal.num ((obs.map Prod.snd).sum)) ∧
    ∀ obs' : List (JSVal × Rat), obs.Perm obs' →
      durAt (obs'.foldl (trackObs uid url date) db) (uid, url, date) =
        durAt (obs.foldl (trackObs uid url date) db) (uid, url, date) := by
  intro uid url date obs db h hne
  refine ⟨durAt_foldl_of_none uid url date obs db h hne, ?_⟩
  intro obs' hperm
  have hne' : obs' ≠ [] := by
    intro hnil
    exact hne (List.Perm.eq_nil (hnil ▸ hperm))
  rw [durAt_foldl_of_none uid url date obs db h hne,
    durAt_foldl_of_none uid url date obs' db h hne']
  have hsum : (obs'.map Prod.snd).sum = (obs.map Prod.snd).sum :=
    (hperm.symm.map Prod.snd).sum_eq
  rw [hsum]

/-- Witness for C2 at a concrete input: two observations of 30 and 20
seconds for the same key, from an empty table, in both orders, leave a
stored duration of 50. -/
theorem claim_C2_witness :
    durAt ([((JSVal.str "A" : JSVal), (30 : Rat)), (JSVal.str "B", 20)].foldl
        (trackObs 1 (JSVal.str "a.com") "2025-10-11") [])
      (1, JSVal.str "a.com", "2025-10-11") = some (JSVal.num 50) ∧
    durAt ([((JSVal.str "B" : JSVal), (20 : Rat)), (JSVal.str "A", 30)].foldl
        (trackObs 1 (JSVal.str "a.com") "2025-10-11") [])
      (1, JSVal.str "a.com", "2025-10-11") =
      durAt ([((JSVal.str "A" : JSVal), (30 : Rat)), (JSVal.str "B", 20)].foldl
        (trackObs 1 (JSVal.str "a.com") "2025-10-11") [])
      (1, JSVal.str "a.com", "2025-10-11") := by
  have h := claim_C2 1 (JSVal.str "a.com") "2025-10-11"
    [((JSVal.str "A" : JSVal), (30 : Rat)), (JSVal.str "B", 20)] [] (by decide) (by decide)
  constructor
  · have := h.1
    norm_num at this ⊢
    exact this
  · exact h.2 [((JSVal.str "B" : JSVal), (20 : Rat)), (JSVal.str "A", 30)]
      (List.Perm.swap _ _ _)

/-- Counterexample to C3 as stated: tracking (site "a.com", title "A",
30 s) and then (same site, title "A2", 20 s) on the same day leaves the
record with duration 50 but title "A" — the second call's title does NOT
overwrite the stored one (the UPDATE clause of the upsert only touches the
duration column), contradicting the claimed last-write-wins title. -/
theorem claim_C3_counterexample :
    titleAt (trackHandler 1 ⟨JSVal.str "a.com", JSVal.str "A2", JSVal.num 20⟩
        (fun _ => 1760140900000) false
        (trackHandler 1 ⟨JSVal.str "a.com", JSVal.str "A", JSVal.num 30⟩
          (fun _ => 1760140800000) false []).2).2
      (1, JSVal.str "a.com", "2025-10-11") = some (JSVal.str "A") ∧
    durAt (trackHandler 1 ⟨JSVal.str "a.com", JSVal.str "A2", JSVal.num 20⟩
        (fun _ => 1760140900000) false
        (trackHandler 1 ⟨JSVal.str "a.com", JSVal.str "A", JSVal.num 30⟩
          (fun _ => 1760140800000) false []).2).2
      (1, JSVal.str "a.com", "2025-10-11") = some (JSVal.num 50) ∧
    titleAt (trackHandler 1 ⟨JSVal.str "a.com", JSVal.str "A2", JSVal.num 20⟩
        (fun _ => 1760140900000) false
        (trackHandler 1 ⟨JSVal.str "a.com", JSVal.str "A", JSVal.num 30⟩
          (fun _ => 1760140800000) false []).2).2
      (1, JSVal.str "a.com", "2025-10-11") ≠ some (JSVal.str "A2") := by
  refine ⟨by decide, ?_, by decide⟩
  have hdb1 : (trackHandler 1 ⟨JSVal.str "a.com", JSVal.str "A", JSVal.num 30⟩
      (fun _ => 1760140800000) false []).2 =
      [⟨1, JSVal.str "a.com", JSVal.str "A", "2025-10-11", JSVal.num 30⟩] := by decide
  rw [hdb1]
  have hvd : visitDateOf 1760140900000 = "2025-10-11" := by decide
  have hstep : (trackHandler 1 ⟨JSVal.str "a.com", JSVal.str "A2", JSVal.num 20⟩
      (fun _ => 1760140900000) false
      [⟨1, JSVal.str "a.com", JSVal.str "A", "2025-10-11", JSVal.num 30⟩]).2 =
      upsert [⟨1, JSVal.str "a.com", JSVal.str "A", "2025-10-11", JSVal.num 30⟩]
        ⟨1, JSVal.str "a.com", JSVal.str "A2", "2025-10-11", JSVal.num 20⟩ := by
    simp [trackHandler, JSVal.truthy, hvd]
  rw [hstep]
  have hold := durAt_upsert_old
    [⟨1, JSVal.str "a.com", JSVal.str "A", "2025-10-11", JSVal.num 30⟩]
    ⟨1, JSVal.str "a.com", JSVal.str "A2", "2025-10-11", JSVal.num 20⟩
    (JSVal.num 30) (by decide)
  have hk : keyOf ⟨1, JSVal.str "a.com", JSVal.str "A2", "2025-10-11", JSVal.num 20⟩ =
      (1, JSVal.str "a.com", "2025-10-11") := rfl
  rw [hk] at hold
  rw [hold]
  have hr : (30 : Rat) + 20 = 50 := by norm_num
  simp [sqlAdd, hr]

/-- C3 as amended: when a /track call hits an existing (user, site, day)
row, the stored duration accumulates but the stored title is unchanged —
the title of the row's first insert wins and any later supplied title is
ignored; when no row exists, the inserted row carries the supplied
title. -/
theorem claim_C3 : ∀ (db : List TTRecord) (r : TTRecord) (e : TTRecord),
    (rowAt db (keyOf r) = some e →
      titleAt (upsert db r) (keyOf r) = some e.website_title ∧
      durAt (upsert db r) (keyOf r) =
        some (sqlAdd e.total_time_seconds r.total_time_seconds)) ∧
    (rowAt db (keyOf r) = none →
      titleAt (upsert db r) (keyOf r) = some r.website_title) := by
  intro db r e
  constructor
  · intro h
    have hmap := rowAt_map_bump db r e h
    have hup := upsert_eq_map db r (any_of_rowAt_some db r e h)
    have hsk : sameKey e r = true := by
      have h' := h
      rw [rowAt_eq_find] at h'
      have hp := List.find?_some h'
      exact hp
    constructor
    · unfold titleAt
      rw [hup, hmap]
      simp [bump, hsk]
    · unfold durAt
      rw [hup, hmap]
      simp [bump, hsk]
  · intro h
    have hup := upsert_eq_append db r (rowAt_of_none db r h)
    unfold titleAt
    rw [hup, rowAt_append_right db r h]
    simp

/-- Witness for C3's amended theorem at a concrete input: the records of
the counterexample, driven through `upsert` directly. -/
theorem claim_C3_witness :
    titleAt (upsert [⟨1, JSVal.str "a.com", JSVal.str "A", "2025-10-11", JSVal.num 30⟩]
        ⟨1, JSVal.str "a.com", JSVal.str "A2", "2025-10-11", JSVal.num 20⟩)
      (keyOf ⟨1, JSVal.str "a.com", JSVal.str "A2", "2025-10-11", JSVal.num 20⟩) =
      some (JSVal.str "A") ∧
    titleAt (upsert []
        ⟨1, JSVal.str "a.com", JSVal.str "A", "2025-10-11", JSVal.num 30⟩)
      (keyOf ⟨1, JSVal.str "a.com", JSVal.str "A", "2025-10-11", JSVal.num 30⟩) =
      some (JSVal.str "A") := by
  have h := claim_C3 [⟨1, JSVal.str "a.com", JSVal.str "A", "2025-10-11", JSVal.num 30⟩]
    ⟨1, JSVal.str "a.com", JSVal.str "A2", "2025-10-11", JSVal.num 20⟩
    ⟨1, JSVal.str "a.com", JSVal.str "A", "2025-10-11", JSVal.num 30⟩
  have h2 := claim_C3 [] ⟨1, JSVal.str "a.com", JSVal.str "A", "2025-10-11", JSVal.num 30⟩
    ⟨1, JSVal.str "a.com", JSVal.str "A", "2025-10-11", JSVal.num 30⟩
  exact ⟨(h.1 (by decide)).1, h2.2 (by decide)⟩

/-- C5: an authenticated /track request fails with a 400 JSON
ValidationError and performs no database write exactly when the site
identifier is absent (JS-falsy, which for a string field means missing or
empty — the code's `!website_url`) or the duration is not provided
(`total_time_seconds === undefined`); when both are present the request
proceeds to the upsert. -/
theorem claim_C5 : ∀ (uid : Nat) (req : TrackReq) (clock : Nat → Nat)
    (db : List TTRecord),
    ((trackHandler uid req clock false db).1 =
        ⟨400, RespBody.jsonError "Missing website_url or total_time_seconds"⟩ ∧
       (trackHandler uid req clock false db).2 = db ↔
      (req.website_url.truthy = false ∨ req.total_time_seconds = JSVal.undef)) ∧
    (req.website_url.truthy = true → req.total_time_seconds ≠ JSVal.undef →
      (trackHandler uid req clock false db).2 =
        upsert db ⟨uid, req.website_url, req.website_title,
          visitDateOf (clock 0), req.total_time_seconds⟩) ∧
    (∀ fault : Bool,
      (req.website_url.truthy = false ∨ req.total_time_seconds = JSVal.undef) →
      (trackHandler uid req clock fault db).1.status = 400 ∧
      (trackHandler uid req clock fault db).2 = db) := by
  intro uid req clock db
  have hbool : (!req.website_url.truthy || req.total_time_seconds == JSVal.undef) = true ↔
      (req.website_url.truthy = false ∨ req.total_time_seconds = JSVal.undef) := by
    simp [Bool.or_eq_true, Bool.not_eq_true', beq_iff_eq]
  refine ⟨?_, ?_, ?_⟩
  · constructor
    · intro h
      rw [← hbool]
      by_contra hc
      rw [Bool.not_eq_true] at hc
      simp only [trackHandler, hc] at h
      simp at h
    · intro h
      rw [← hbool] at h
      simp [trackHandler, h]
  · intro h1 h2
    have hc : (!req.website_url.truthy || req.total_time_seconds == JSVal.undef) = false := by
      simp [h1, h2]
    simp [trackHandler, hc]
  · intro fault h
    rw [← hbool] at h
    simp [trackHandler, h]

/-- Witness for C5 at concrete inputs: a request missing the duration gets
400 and leaves the table unchanged; a complete request reaches the
upsert. -/
theorem claim_C5_witness :
    ((trackHandler 7 ⟨JSVal.str "a.com", JSVal.undef, JSVal.undef⟩ (fun _ => 0) false []).1 =
        ⟨400, RespBody.jsonError "Missing website_url or total_time_seconds"⟩ ∧
      (trackHandler 7 ⟨JSVal.str "a.com", JSVal.undef, JSVal.undef⟩ (fun _ => 0) false []).2 = []) ∧
    (trackHandler 7 ⟨JSVal.str "a.com", JSVal.undef, JSVal.num 3⟩ (fun _ => 0) false []).2 =
      upsert [] ⟨7, JSVal.str "a.com", JSVal.undef, visitDateOf 0, JSVal.num 3⟩ := by
  constructor
  · exact (claim_C5 7 ⟨JSVal.str "a.com", JSVal.undef, JSVal.undef⟩ (fun _ => 0) []).1.mpr
      (Or.inr rfl)
  · exact (claim_C5 7 ⟨JSVal.str "a.com", JSVal.undef, JSVal.num 3⟩ (fun _ => 0) []).2.1
      (by decide) (by decide)

/-- C6: on the protected /track route (index.js `authenticateToken`), a
request whose bearer token is absent (no Authorization header, or no
second space-separated part) is answered 401; a present token that fails
verification is answered 403; on successful verification the route body
runs with the user identifier decoded from the token. -/
theorem claim_C6 : ∀ (verify : String → Option Nat) (authHeader : Option String)
    (req : TrackReq) (clock : Nat → Nat) (fault : Bool) (db : List TTRecord),
    (authHeader = none → extractToken authHeader = none) ∧
    (extractToken authHeader = none →
      trackRouteJson verify authHeader req clock fault db =
        (⟨401, RespBody.jsonError "Authentication token is required"⟩, db)) ∧
    (∀ tok : String, extractToken authHeader = some tok → verify tok = none →
      trackRouteJson verify authHeader req clock fault db =
        (⟨403, RespBody.jsonError "Invalid or expired token"⟩, db)) ∧
    (∀ tok : String, ∀ uid : Nat,
      extractToken authHeader = some tok → verify tok = some uid →
      trackRouteJson verify authHeader req clock fault db =
        trackHandler uid req clock fault db) := by
  intro verify authHeader req clock fault db
  refine ⟨?_, ?_, ?_, ?_⟩
  · intro h; rw [h]; rfl
  · intro h; simp [trackRouteJson, h]
  · intro tok h hv; simp [trackRouteJson, h, hv]
  · intro tok uid h hv; simp [trackRouteJson, h, hv]

/-- Witness for C6 at concrete inputs: a missing header yields 401, a
rejected token yields 403, and an accepted token runs the handler with the
decoded user id. -/
theorem claim_C6_witness :
    trackRouteJson (fun t => if t == "good" then some 7 else none) none
        ⟨JSVal.str "a.com", JSVal.undef, JSVal.num 3⟩ (fun _ => 0) false [] =
      (⟨401, RespBody.jsonError "Authentication token is required"⟩, []) ∧
    trackRouteJson (fun t => if t == "good" then some 7 else none) (some "Bearer bad")
        ⟨JSVal.str "a.com", JSVal.undef, JSVal.num 3⟩ (fun _ => 0) false [] =
      (⟨403, RespBody.jsonError "Invalid or expired token"⟩, []) ∧
    trackRouteJson (fun t => if t == "good" then some 7 else none) (some "Bearer good")
        ⟨JSVal.str "a.com", JSVal.undef, JSVal.num 3⟩ (fun _ => 0) false [] =
      trackHandler 7 ⟨JSVal.str "a.com", JSVal.undef, JSVal.num 3⟩ (fun _ => 0) false [] := by
  refine ⟨?_, ?_, ?_⟩
  · exact (claim_C6 (fun t => if t == "good" then some 7 else none) none
      ⟨JSVal.str "a.com", JSVal.undef, JSVal.num 3⟩ (fun _ => 0) false []).2.1 (by decide)
  · exact (claim_C6 (fun t => if t == "good" then some 7 else none) (some "Bearer bad")
      ⟨JSVal.str "a.com", JSVal.undef, JSVal.num 3⟩ (fun _ => 0) false []).2.2.1 "bad"
      (by decide) (by decide)
  · exact (claim_C6 (fun t => if t == "good" then some 7 else none) (some "Bearer good")
      ⟨JSVal.str "a.com", JSVal.undef, JSVal.num 3⟩ (fun _ => 0) false []).2.2.2 "good" 7
      (by decide) (by decide)

/-- C8: the /track handler reads the clock once at entry — its whole
result depends only on the first clock reading, so validation and the
write use that same single instant; the stored visit date is the first
ten characters of the ISO-8601 timestamp, i.e. the "YYYY-MM-DD" rendering
of the UTC civil date of that instant; consequently two instants of the
same UTC day yield the same visit date (one observation, one day
bucket). -/
theorem claim_C8 : ∀ (uid : Nat) (req : TrackReq) (fault : Bool)
    (db : List TTRecord) (c c' : Nat → Nat),
    (c 0 = c' 0 → trackHandler uid req c fault db = trackHandler uid req c' fault db) ∧
    (∀ t : Nat, visitDateOf t = String.mk (isoDateOf t)) ∧
    (∀ t t' : Nat, epochDay t = epochDay t' → visitDateOf t = visitDateOf t') := by
  intro uid req fault db c c'
  have hdate : ∀ t : Nat, visitDateOf t = String.mk (isoDateOf t) := by
    intro t
    unfold visitDateOf toISOChars
    have hlen : (isoDateOf t).length = 10 := rfl
    rw [← hlen, List.take_left]
  refine ⟨?_, hdate, ?_⟩
  · intro h
    simp only [trackHandler, h]
  · intro t t' h
    rw [hdate, hdate]
    unfold isoDateOf
    rw [h]

/-- Witness for C8 at concrete inputs: two clocks agreeing on their first
reading give identical handler results, and two instants of the same UTC
day give the same visit date. -/
theorem claim_C8_witness :
    trackHandler 1 ⟨JSVal.str "a.com", JSVal.undef, JSVal.num 3⟩ (fun _ => 5) false [] =
      trackHandler 1 ⟨JSVal.str "a.com", JSVal.undef, JSVal.num 3⟩
        (fun n => if n = 0 then 5 else 999999) false [] ∧
    visitDateOf 1760140800000 = visitDateOf 1760183999123 := by
  constructor
  · exact (claim_C8 1 ⟨JSVal.str "a.com", JSVal.undef, JSVal.num 3⟩ false []
      (fun _ => 5) (fun n => if n = 0 then 5 else 999999)).1 rfl
  · exact (claim_C8 1 ⟨JSVal.str "a.com", JSVal.undef, JSVal.num 3⟩ false []
      (fun _ => 5) (fun _ => 5)).2.2 1760140800000 1760183999123 (by decide)

/-- C9: /track validation accepts any total_time_seconds other than the
strictly-undefined value — 0, negative numbers, non-integers and null all
pass and the value is written to storage as given (no integer-or-
nonnegative check exists); conversely an empty-string website_url is
JS-falsy and is rejected as absent with a 400 and no write. -/
theorem claim_C9 : ∀ (uid : Nat) (req : TrackReq) (clock : Nat → Nat)
    (db : List TTRecord),
    (req.website_url.truthy = true → req.total_time_seconds ≠ JSVal.undef →
      trackHandler uid req clock false db =
        (⟨200, RespBody.jsonMessage "Data saved successfully"⟩,
          upsert db ⟨uid, req.website_url, req.website_title,
            visitDateOf (clock 0), req.total_time_seconds⟩)) ∧
    (∀ title secs : JSVal, ∀ fault : Bool,
      trackHandler uid ⟨JSVal.str "", title, secs⟩ clock fault db =
        (⟨400, RespBody.jsonError "Missing website_url or total_time_seconds"⟩, db)) := by
  intro uid req clock db
  constructor
  · intro h1 h2
    have hc : (!req.website_url.truthy || req.total_time_seconds == JSVal.undef) = false := by
      simp [h1, h2]
    simp [trackHandler, hc]
  · intro title secs fault
    simp [trackHandler, JSVal.truthy]

/-- Witness for C9 at concrete inputs: null, zero, a negative number and a
non-integer all pass validation and are written as given. -/
theorem claim_C9_witness :
    (trackHandler 1 ⟨JSVal.str "a.com", JSVal.undef, JSVal.null⟩ (fun _ => 0) false []).2 =
      upsert [] ⟨1, JSVal.str "a.com", JSVal.undef, visitDateOf 0, JSVal.null⟩ ∧
    (trackHandler 1 ⟨JSVal.str "a.com", JSVal.undef, JSVal.num 0⟩ (fun _ => 0) false []).2 =
      upsert [] ⟨1, JSVal.str "a.com", JSVal.undef, visitDateOf 0, JSVal.num 0⟩ ∧
    (trackHandler 1 ⟨JSVal.str "a.com", JSVal.undef, JSVal.num (-5)⟩ (fun _ => 0) false []).2 =
      upsert [] ⟨1, JSVal.str "a.com", JSVal.undef, visitDateOf 0, JSVal.num (-5)⟩ ∧
    (trackHandler 1 ⟨JSVal.str "a.com", JSVal.undef, JSVal.num (5 / 2)⟩ (fun _ => 0) false []).2 =
      upsert [] ⟨1, JSVal.str "a.com", JSVal.undef, visitDateOf 0, JSVal.num (5 / 2)⟩ ∧
    (trackHandler 1 ⟨JSVal.str "", JSVal.undef, JSVal.num 3⟩ (fun _ => 0) false []).2 = [] := by
  refine ⟨?_, ?_, ?_, ?_, ?_⟩
  · rw [(claim_C9 1 ⟨JSVal.str "a.com", JSVal.undef, JSVal.null⟩ (fun _ => 0) []).1
      (by decide) (by decide)]
  · rw [(claim_C9 1 ⟨JSVal.str "a.com", JSVal.undef, JSVal.num 0⟩ (fun _ => 0) []).1
      (by decide) (by decide)]
  · rw [(claim_C9 1 ⟨JSVal.str "a.com", JSVal.undef, JSVal.num (-5)⟩ (fun _ => 0) []).1
      (by decide) (by decide)]
  · rw [(claim_C9 1 ⟨JSVal.str "a.com", JSVal.undef, JSVal.num (5 / 2)⟩ (fun _ => 0) []).1
      (by decide) (by decide)]
  · rw [(claim_C9 1 ⟨JSVal.str "", JSVal.undef, JSVal.num 3⟩ (fun _ => 0) []).2
      JSVal.undef (JSVal.num 3) false]

/-- C10: for a /login request with both fields present, the response when
the username does not exist and the response when the username exists but
the password does not match are the same value — status 401 with body
`{error: "Invalid credentials"}` — so an observer of the response cannot
tell an unknown username from a wrong password. -/
theorem claim_C10 : ∀ (compare : JSVal → String → Bool) (sign : Nat → String)
    (username password : JSVal) (users1 users2 : List UserRec) (u : UserRec),
    username.truthy = true → password.truthy = true →
    users1.find? (fun x => x.username == username) = some u →
    compare password u.password_hash = false →
    users2.find? (fun x => x.username == username) = none →
    loginHandler compare sign username password users1 false =
      ⟨401, RespBody.jsonError "Invalid credentials"⟩ ∧
    loginHandler compare sign username password users2 false =
      ⟨401, RespBody.jsonError "Invalid credentials"⟩ ∧
    loginHandler compare sign username password users1 false =
      loginHandler compare sign username password users2 false := by
  intro compare sign username password users1 users2 u h1 h2 hf hc hn
  have ha : loginHandler compare sign username password users1 false =
      ⟨401, RespBody.jsonError "Invalid credentials"⟩ := by
    simp [loginHandler, h1, h2, hf, hc]
  have hb : loginHandler compare sign username password users2 false =
      ⟨401, RespBody.jsonError "Invalid credentials"⟩ := by
    simp [loginHandler, h1, h2, hn]
  exact ⟨ha, hb, by rw [ha, hb]⟩

/-- Witness for C10 at concrete inputs: a store where "alice" exists with
a non-matching password and a store without "alice" produce the same 401
"Invalid credentials" response. -/
theorem claim_C10_witness :
    loginHandler (fun _ _ => false) (fun _ => "tok") (JSVal.str "alice") (JSVal.str "pw")
        [⟨1, JSVal.str "alice", "h1"⟩] false =
      ⟨401, RespBody.jsonError "Invalid credentials"⟩ ∧
    loginHandler (fun _ _ => false) (fun _ => "tok") (JSVal.str "alice") (JSVal.str "pw")
        [⟨2, JSVal.str "bob", "h2"⟩] false =
      ⟨401, RespBody.jsonError "Invalid credentials"⟩ ∧
    loginHandler (fun _ _ => false) (fun _ => "tok") (JSVal.str "alice") (JSVal.str "pw")
        [⟨1, JSVal.str "alice", "h1"⟩] false =
      loginHandler (fun _ _ => false) (fun _ => "tok") (JSVal.str "alice") (JSVal.str "pw")
        [⟨2, JSVal.str "bob", "h2"⟩] false :=
  claim_C10 (fun _ _ => false) (fun _ => "tok") (JSVal.str "alice") (JSVal.str "pw")
    [⟨1, JSVal.str "alice", "h1"⟩] [⟨2, JSVal.str "bob", "h2"⟩] ⟨1, JSVal.str "alice", "h1"⟩
    (by decide) (by decide) (by decide) rfl (by decide)

/-- Counterexample to C7 as stated: in the part_000 draft the
authentication middleware answers a request with no Authorization header
by `res.sendStatus(401)` — an error response with no JSON body and no
`error` message. -/
theorem claim_C7_counterexample :
    (trackRouteBare (fun _ => none) none ⟨JSVal.str "a.com", JSVal.undef, JSVal.num 3⟩
        (fun _ => 0) false []).1.status = 401 ∧
    (trackRouteBare (fun _ => none) none ⟨JSVal.str "a.com", JSVal.undef, JSVal.num 3⟩
        (fun _ => 0) false []).1.body.isJsonError = false := by
  exact ⟨rfl, rfl⟩

/-- C7 as amended: every error response (status 400 or above) of the
register, login and /track handlers carries a JSON body with an `error`
message, except the auth failures of the part_000 draft, whose middleware
sends bare 401/403 statuses with no JSON body (`res.sendStatus`). -/
theorem claim_C7 :
    (∀ (hash : JSVal → String) (username password : JSVal) (users : List UserRec)
      (fault : Bool) (nextId : Nat),
      400 ≤ (registerHandler hash username password users fault nextId).1.status →
      (registerHandler hash username password users fault nextId).1.body.isJsonError = true) ∧
    (∀ (compare : JSVal → String → Bool) (sign : Nat → String) (username password : JSVal)
      (users : List UserRec) (fault : Bool),
      400 ≤ (loginHandler compare sign username password users fault).status →
      (loginHandler compare sign username password users fault).body.isJsonError = true) ∧
    (∀ (verify : String → Option Nat) (authHeader : Option String) (req : TrackReq)
      (clock : Nat → Nat) (fault : Bool) (db : List TTRecord),
      400 ≤ (trackRouteJson verify authHeader req clock fault db).1.status →
      (trackRouteJson verify authHeader req clock fault db).1.body.isJsonError = true) ∧
    (∀ (verify : String → Option Nat) (authHeader : Option String) (req : TrackReq)
      (clock : Nat → Nat) (fault : Bool) (db : List TTRecord),
      400 ≤ (trackRouteBare verify authHeader req clock fault db).1.status →
      (trackRouteBare verify authHeader req clock fault db).1.body.isJsonError = true ∨
      ((trackRouteBare verify authHeader req clock fault db).1.body = RespBody.statusBare ∧
        ((trackRouteBare verify authHeader req clock fault db).1.status = 401 ∨
          (trackRouteBare verify authHeader req clock fault db).1.status = 403))) := by
  refine ⟨?_, ?_, ?_, ?_⟩
  · intro hash username password users fault nextId
    unfold registerHandler
    split_ifs <;> simp [RespBody.isJsonError]
  · intro compare sign username password users fault
    unfold loginHandler
    split_ifs
    · simp [RespBody.isJsonError]
    · simp [RespBody.isJsonError]
    · cases hf : users.find? (fun u => u.username == username) with
      | none => simp [RespBody.isJsonError]
      | some u =>
        dsimp only
        split_ifs <;> simp [RespBody.isJsonError]
  · intro verify authHeader req clock fault db
    unfold trackRouteJson
    cases he : extractToken authHeader with
    | none => simp [RespBody.isJsonError]
    | some tok =>
      dsimp only
      cases hv : verify tok with
      | none => simp [RespBody.isJsonError]
      | some uid =>
        dsimp only
        unfold trackHandler
        split_ifs <;> simp [RespBody.isJsonError]
  · intro verify authHeader req clock fault db
    unfold trackRouteBare
    cases he : extractToken authHeader with
    | none =>
      dsimp only
      intro hge
      exact Or.inr ⟨rfl, Or.inl rfl⟩
    | some tok =>
      dsimp only
      cases hv : verify tok with
      | none =>
        dsimp only
        intro hge
        exact Or.inr ⟨rfl, Or.inr rfl⟩
      | some uid =>
        dsimp only
        unfold trackHandler
        split_ifs <;> simp [RespBody.isJsonError]

/-- Witness for C7's amended theorem at a concrete input: a login request
with missing fields gets a 400 response whose body is a JSON error. -/
theorem claim_C7_witness :
    (loginHandler (fun _ _ => false) (fun _ => "tok") JSVal.undef JSVal.undef []
      false).body.isJsonError = true :=
  claim_C7.2.1 (fun _ _ => false) (fun _ => "tok") JSVal.undef JSVal.undef [] false
    (by decide)

/-- C4 (the dashboard operation is modelled from the spec — no /dashboard
route exists in src/): for every user and window selector, each entry of
the result pairs a site the user visited in the window with the sum of
that site's durations over the window; every site visited in the window
appears; the list is ordered by descending total; any selector other than
`current-week` (including a missing one) behaves as `today`; the two
window filters are day-equality and same-ISO-week (Monday-start)
respectively; and a user with no records in the window gets the empty
list, not an error. -/
theorem claim_C4 : ∀ (uid : Nat) (sel : Option String) (today : Nat)
    (rows : List LedgerRow),
    (∀ p : String × Nat, p ∈ dashboard uid sel today rows →
      p.2 = siteTotal (windowRows uid sel today rows) p.1 ∧
      p.1 ∈ (windowRows uid sel today rows).map (fun r => r.website_url)) ∧
    (∀ r : LedgerRow, r ∈ rows → r.user_id = uid →
      windowPred sel today r.visit_date = true →
      ∃ t : Nat, (r.website_url, t) ∈ dashboard uid sel today rows) ∧
    (dashboard uid sel today rows).Pairwise (fun a b => b.2 ≤ a.2) ∧
    (∀ d : Nat, windowPred none today d = (d == today)) ∧
    (∀ d : Nat, windowPred (some "current-week") today d = sameIsoWeek today d) ∧
    (sel ≠ some "current-week" →
      dashboard uid sel today rows = dashboard uid (some "today") today rows) ∧
    ((∀ r ∈ rows, r.user_id = uid → windowPred sel today r.visit_date = false) →
      dashboard uid sel today rows = []) := by
  intro uid sel today rows
  refine ⟨?_, ?_, ?_, fun d => rfl, fun d => rfl, ?_, ?_⟩
  · intro p hp
    have hpairs : p ∈ ((windowRows uid sel today rows).map
        (fun r => r.website_url)).dedup.map
        (fun s => (s, siteTotal (windowRows uid sel today rows) s)) := by
      have hperm := List.perm_insertionSort descTotal
        (((windowRows uid sel today rows).map (fun r => r.website_url)).dedup.map
          (fun s => (s, siteTotal (windowRows uid sel today rows) s)))
      exact hperm.mem_iff.mp hp
    rcases List.mem_map.mp hpairs with ⟨s, hs, hsp⟩
    rcases hsp with rfl
    exact ⟨rfl, List.mem_dedup.mp hs⟩
  · intro r hr hu hw
    have hmine : r ∈ windowRows uid sel today rows := by
      unfold windowRows
      refine List.mem_filter.mpr ⟨hr, ?_⟩
      simp [hu, hw]
    refine ⟨siteTotal (windowRows uid sel today rows) r.website_url, ?_⟩
    have hsite : r.website_url ∈ ((windowRows uid sel today rows).map
        (fun x => x.website_url)).dedup :=
      List.mem_dedup.mpr (List.mem_map_of_mem (fun x => x.website_url) hmine)
    have hpairs := List.mem_map_of_mem
      (fun s => (s, siteTotal (windowRows uid sel today rows) s)) hsite
    have hperm := List.perm_insertionSort descTotal
      (((windowRows uid sel today rows).map (fun x => x.website_url)).dedup.map
        (fun s => (s, siteTotal (windowRows uid sel today rows) s)))
    exact hperm.mem_iff.mpr hpairs
  · exact List.sorted_insertionSort descTotal _
  · intro h
    have hq : (sel == some "current-week") = false := by
      simp only [beq_eq_false_iff_ne, ne_eq]
      exact h
    unfold dashboard windowRows windowPred
    rw [hq]
    simp
  · intro h
    have hmine : windowRows uid sel today rows = [] := by
      unfold windowRows
      rw [List.filter_eq_nil_iff]
      intro a ha
      by_cases hu : a.user_id = uid
      · simp [hu, h a ha hu]
      · simp [hu]
    unfold dashboard
    rw [hmine]
    rfl

/-- Witness for C4 at a concrete input: with one in-window row for
"a.com", the site appears in the dashboard result. -/
theorem claim_C4_witness :
    ∃ t : Nat, ("a.com", t) ∈ dashboard 1 none 100 [⟨1, "a.com", 100, 30⟩] :=
  (claim_C4 1 none 100 [⟨1, "a.com", 100, 30⟩]).2.1 ⟨1, "a.com", 100, 30⟩
    (by decide) rfl (by decide)
